import Mathlib

/-!
Shallow embedding of the real-time presence/chat relay of the music platform
(`spotify_backend/socketManager.js`) together with the friend-request accept
route.  User identifiers and socket identifiers are strings (the JavaScript
code keys its `connectedUsers` map by `userId.toString()`), timestamps are
naturals, and every delegated persistence write carries an explicit
success/failure oracle so that the try/catch structure of the handlers can be
reproduced: an uncaught exception is recorded in the `crashed` flag of a
handler result.
-/

namespace Relay

/-- A user document as stored by the `User` mongoose schema: the fields the
relay reads or writes (`username` display data, the `friends` array of user
ids, `isOnline`, `lastSeen`, and the optional `currentlyPlaying` pair of a
song id and a timestamp). -/
structure UserRec where
  username : String
  friends : List String
  isOnline : Bool
  lastSeen : Nat
  currentlyPlaying : Option (String × Nat)
  deriving Repr, DecidableEq

/-- A `ChatMessage` document: sender id, receiver id, content, creation time. -/
structure ChatMsg where
  sender : String
  receiver : String
  content : String
  createdAt : Nat
  deriving Repr, DecidableEq

/-- A message record after `message.populate("sender", ...)`: the same stored
fields plus the sender display metadata attached for delivery. -/
structure EnrichedMsg where
  sender : String
  receiver : String
  content : String
  createdAt : Nat
  senderName : Option String
  deriving Repr, DecidableEq

/-- The persistence collaborator: the user collection and the chat-message
collection. -/
structure DB where
  users : List (String × UserRec)
  messages : List ChatMsg
  deriving Repr, DecidableEq

/-- `User.findById`: look a user document up by id, `none` when absent. -/
def findById (db : DB) (uid : String) : Option UserRec :=
  (db.users.find? (fun p => p.1 == uid)).map Prod.snd

/-- `User.findByIdAndUpdate` / `User.updateOne`: apply `f` to the document
with id `uid`; a no-op when no such document exists. -/
def userUpdate (db : DB) (uid : String) (f : UserRec → UserRec) : DB :=
  { db with users := db.users.map (fun p => if p.1 == uid then (p.1, f p.2) else p) }

/-- The in-memory `connectedUsers` map from user id to socket id. -/
abbrev ConnMap := List (String × String)

/-- `connectedUsers.set(userId, socket.id)`: last write wins. -/
def mapSet (m : ConnMap) (k v : String) : ConnMap :=
  (k, v) :: m.filter (fun p => !(p.1 == k))

/-- `connectedUsers.get(key)`. -/
def mapGet (m : ConnMap) (k : String) : Option String :=
  (m.find? (fun p => p.1 == k)).map Prod.snd

/-- `connectedUsers.delete(key)`. -/
def mapDelete (m : ConnMap) (k : String) : ConnMap :=
  m.filter (fun p => !(p.1 == k))

/-- The socket events the relay emits, each tagged with the socket id it is
emitted to. -/
inductive OutEvent where
  | friendOnline (target userId : String)
  | friendOffline (target userId : String) (lastSeen : Nat)
  | friendCurrentlyPlaying (target userId songId : String) (timestamp : Nat)
  | newMessage (target : String) (msg : EnrichedMsg)
  | messageSent (target : String) (msg : EnrichedMsg)
  | messageError (target : String)
  | userTyping (target userId : String)
  deriving Repr, DecidableEq

/-- Result of running one socket event handler: the connection map, the
database, the list of emitted events in emission order, and whether an
exception escaped the handler uncaught. -/
structure HResult where
  conns : ConnMap
  db : DB
  out : List OutEvent
  crashed : Bool
  deriving Repr, DecidableEq

/-- The `forEach` fan-out loop over a friends list: for each friend id with a
live connection, emit one event to that friend's socket. -/
def fanout (conns : ConnMap) (friends : List String) (mk : String → OutEvent) :
    List OutEvent :=
  friends.filterMap (fun fid => (mapGet conns fid).map mk)

/-- `message.populate("sender", "username ...")`: attach the sender's display
data read from the user collection; the stored record is not mutated. -/
def populateSender (db : DB) (m : ChatMsg) : EnrichedMsg :=
  { sender := m.sender, receiver := m.receiver, content := m.content,
    createdAt := m.createdAt,
    senderName := (findById db m.sender).map UserRec.username }

/-- The `io.on("connection", ...)` body: register the socket, persist
online/lastSeen (no try/catch — a failed write aborts the handler), re-read
the user, and fan `friendOnline` out to every connected friend. -/
def handleConnection (conns : ConnMap) (db : DB) (userId socketId : String)
    (now : Nat) (persistOk : Bool) : HResult :=
  let conns1 := mapSet conns userId socketId
  if persistOk then
    let db1 := userUpdate db userId
      (fun u => { u with isOnline := true, lastSeen := now })
    match findById db1 userId with
    | some u =>
        if u.friends.length > 0 then
          { conns := conns1, db := db1,
            out := fanout conns1 u.friends (fun fs => .friendOnline fs userId),
            crashed := false }
        else
          { conns := conns1, db := db1, out := [], crashed := false }
    | none => { conns := conns1, db := db1, out := [], crashed := false }
  else
    { conns := conns1, db := db, out := [], crashed := true }

/-- The `socket.on("disconnect", ...)` handler: remove the registry entry,
persist offline/lastSeen (no try/catch), and fan `friendOffline` out to every
connected friend with the fresh `lastSeen`. -/
def handleDisconnect (conns : ConnMap) (db : DB) (userId : String)
    (now : Nat) (persistOk : Bool) : HResult :=
  let conns1 := mapDelete conns userId
  if persistOk then
    let db1 := userUpdate db userId
      (fun u => { u with isOnline := false, lastSeen := now })
    match findById db1 userId with
    | some u =>
        if u.friends.length > 0 then
          { conns := conns1, db := db1,
            out := fanout conns1 u.friends (fun fs => .friendOffline fs userId now),
            crashed := false }
        else
          { conns := conns1, db := db1, out := [], crashed := false }
    | none => { conns := conns1, db := db1, out := [], crashed := false }
  else
    { conns := conns1, db := db, out := [], crashed := true }

/-- The `socket.on("updateCurrentlyPlaying", ...)` handler: inside a
try/catch, persist the currently-playing pair, then fan
`friendCurrentlyPlaying` out to connected friends; a failed write jumps to
the catch, which only logs — nothing is emitted and nothing escapes. -/
def handleUpdateCurrentlyPlaying (conns : ConnMap) (db : DB)
    (userId songId : String) (now : Nat) (persistOk : Bool) : HResult :=
  if persistOk then
    let db1 := userUpdate db userId
      (fun u => { u with currentlyPlaying := some (songId, now) })
    match findById db1 userId with
    | some u =>
        if u.friends.length > 0 then
          { conns := conns, db := db1,
            out := fanout conns u.friends
              (fun fs => .friendCurrentlyPlaying fs userId songId now),
            crashed := false }
        else
          { conns := conns, db := db1, out := [], crashed := false }
    | none => { conns := conns, db := db1, out := [], crashed := false }
  else
    { conns := conns, db := db, out := [], crashed := false }

/-- The `socket.on("privateMessage", ...)` handler: inside a try/catch,
create the message record (the durability point), enrich it with sender
display data, deliver `newMessage` to the receiver's socket when live, and
always acknowledge the sender with `messageSent`; if the create fails, the
catch emits `messageError` to the sender only. -/
def handlePrivateMessage (conns : ConnMap) (db : DB)
    (senderId senderSocket receiverId content : String) (now : Nat)
    (createOk : Bool) : HResult :=
  if createOk then
    let m : ChatMsg :=
      { sender := senderId, receiver := receiverId, content := content,
        createdAt := now }
    let db1 := { db with messages := db.messages ++ [m] }
    let em := populateSender db1 m
    let deliver :=
      match mapGet conns receiverId with
      | some rs => [OutEvent.newMessage rs em]
      | none => []
    { conns := conns, db := db1,
      out := deliver ++ [OutEvent.messageSent senderSocket em],
      crashed := false }
  else
    { conns := conns, db := db, out := [OutEvent.messageError senderSocket],
      crashed := false }

/-- The `socket.on("typing", ...)` handler: a payload with no `receiverId`
makes `connectedUsers.get(undefined)` miss, so nothing is emitted; otherwise
forward `userTyping` to the receiver's socket when live. -/
def handleTyping (conns : ConnMap) (userId : String)
    (receiverId : Option String) : List OutEvent :=
  match receiverId with
  | none => []
  | some rid =>
      match mapGet conns rid with
      | some rs => [OutEvent.userTyping rs userId]
      | none => []

/-- A pending friend request document. -/
structure FriendRequest where
  id : String
  sender : String
  receiver : String
  status : String
  deriving Repr, DecidableEq

/-- Mongo `$addToSet`: append unless already present. -/
def addToSet (l : List String) (x : String) : List String :=
  if x ∈ l then l else l ++ [x]

/-- Result of the accept route: database, request collection, HTTP status. -/
structure RouteResult where
  db : DB
  requests : List FriendRequest
  status : Nat
  deriving Repr, DecidableEq

/-- The `POST /request/:requestId/accept` route: 404 when the request is
unknown, 403 when the caller is not its receiver, otherwise `$addToSet` the
receiver into the sender's friends and the sender into the receiver's
friends, then mark the request accepted. -/
def acceptFriendRequest (db : DB) (reqs : List FriendRequest)
    (requestId callerId : String) : RouteResult :=
  match reqs.find? (fun r => r.id == requestId) with
  | none => { db := db, requests := reqs, status := 404 }
  | some r =>
      if r.receiver ≠ callerId then
        { db := db, requests := reqs, status := 403 }
      else
        let db1 := userUpdate db r.sender
          (fun u => { u with friends := addToSet u.friends r.receiver })
        let db2 := userUpdate db1 r.receiver
          (fun u => { u with friends := addToSet u.friends r.sender })
        let reqs1 := reqs.map
          (fun q => if q.id == r.id then { q with status := "accepted" } else q)
        { db := db2, requests := reqs1, status := 200 }

/-! ### Helper lemmas -/

theorem findById_userUpdate_self (db : DB) (uid : String)
    (f : UserRec → UserRec) :
    findById (userUpdate db uid f) uid = (findById db uid).map f := by
  rcases db with ⟨users, msgs⟩
  show (List.find? (fun p => p.1 == uid)
        (users.map (fun p => if p.1 == uid then (p.1, f p.2) else p))).map Prod.snd
      = ((List.find? (fun p => p.1 == uid) users).map Prod.snd).map f
  induction users with
  | nil => rfl
  | cons p l ih =>
    rw [List.map_cons, List.find?_cons, List.find?_cons]
    by_cases hp : p.1 = uid
    · simp [hp, -List.find?_map]
    · have hb : (p.1 == uid) = false := by simp [hp]
      have hb2 : ((if p.1 == uid then (p.1, f p.2) else p).1 == uid) = false := by
        simp [hp]
      rw [hb2, hb]
      exact ih

theorem findById_userUpdate_ne (db : DB) (uid uid2 : String)
    (f : UserRec → UserRec) (h : uid ≠ uid2) :
    findById (userUpdate db uid f) uid2 = findById db uid2 := by
  rcases db with ⟨users, msgs⟩
  show (List.find? (fun p => p.1 == uid2)
        (users.map (fun p => if p.1 == uid then (p.1, f p.2) else p))).map Prod.snd
      = (List.find? (fun p => p.1 == uid2) users).map Prod.snd
  induction users with
  | nil => rfl
  | cons p l ih =>
    rw [List.map_cons, List.find?_cons, List.find?_cons]
    by_cases hp : p.1 = uid
    · have hb : (p.1 == uid2) = false := by simp [hp, h]
      have hb2 : ((if p.1 == uid then (p.1, f p.2) else p).1 == uid2) = false := by
        simp [hp, h]
      rw [hb2, hb]
      exact ih
    · by_cases hp2 : p.1 = uid2
      · have hb : (p.1 == uid2) = true := by simp [hp2]
        have hcond : ¬ (uid2 = uid) := fun hcontra => hp (hp2.trans hcontra)
        have hb2 : ((if p.1 == uid then (p.1, f p.2) else p).1 == uid2) = true := by
          simp [hp2, hcond]
        rw [hb2, hb]
        simp [hp]
      · have hb : (p.1 == uid2) = false := by simp [hp2]
        have hb2 : ((if p.1 == uid then (p.1, f p.2) else p).1 == uid2) = false := by
          simp [hp, hp2]
        rw [hb2, hb]
        exact ih

theorem fanout_nil (conns : ConnMap) (mk : String → OutEvent) :
    fanout conns [] mk = [] := rfl

theorem fanout_cons (conns : ConnMap) (a : String) (l : List String)
    (mk : String → OutEvent) :
    fanout conns (a :: l) mk
      = match mapGet conns a with
        | some s => mk s :: fanout conns l mk
        | none => fanout conns l mk := by
  unfold fanout
  cases h : mapGet conns a <;> simp [List.filterMap_cons, h]

theorem fanout_length (conns : ConnMap) (friends : List String)
    (mk : String → OutEvent) :
    (fanout conns friends mk).length
      = (friends.filter (fun g => (mapGet conns g).isSome)).length := by
  induction friends with
  | nil => rfl
  | cons a l ih =>
    rw [fanout_cons]
    cases h : mapGet conns a <;> simp [List.filter_cons, h, ih]

theorem fanout_mem (conns : ConnMap) (friends : List String)
    (mk : String → OutEvent) (e : OutEvent) (he : e ∈ fanout conns friends mk) :
    ∃ g s, g ∈ friends ∧ mapGet conns g = some s ∧ e = mk s := by
  unfold fanout at he
  rcases List.mem_filterMap.mp he with ⟨g, hg, hmap⟩
  cases h : mapGet conns g with
  | none => rw [h] at hmap; cases hmap
  | some s =>
      rw [h] at hmap
      exact ⟨g, s, hg, h, by simpa using hmap.symm⟩

theorem fanout_count_zero (conns : ConnMap) (friends : List String)
    (mk : String → OutEvent) (fs : String)
    (hmk : ∀ a b, mk a = mk b → a = b)
    (h : ∀ g ∈ friends, mapGet conns g ≠ some fs) :
    (fanout conns friends mk).count (mk fs) = 0 := by
  induction friends with
  | nil => rfl
  | cons a l ih =>
    rw [fanout_cons]
    cases hg : mapGet conns a with
    | none => exact ih (fun g hgl => h g (List.mem_cons_of_mem a hgl))
    | some s =>
        have hs : s ≠ fs := by
          intro hcontra
          exact h a (List.mem_cons_self a l) (hcontra ▸ hg)
        have hne2 : mk s ≠ mk fs := fun hmkeq => hs (hmk _ _ hmkeq)
        rw [List.count_cons]
        simp [hne2, ih (fun g hgl => h g (List.mem_cons_of_mem a hgl))]

theorem fanout_count_one (conns : ConnMap) (friends : List String)
    (mk : String → OutEvent) (f fs : String)
    (hmk : ∀ a b, mk a = mk b → a = b)
    (hnd : friends.Nodup) (hf : f ∈ friends)
    (hfs : mapGet conns f = some fs)
    (hinj : ∀ g ∈ friends, mapGet conns g = some fs → g = f) :
    (fanout conns friends mk).count (mk fs) = 1 := by
  induction friends with
  | nil => cases hf
  | cons a l ih =>
    rw [fanout_cons]
    by_cases haf : a = f
    · subst haf
      rw [hfs]
      have hzero : (fanout conns l mk).count (mk fs) = 0 := by
        apply fanout_count_zero conns l mk fs hmk
        intro g hgl hcontra
        have hga : g = a := hinj g (List.mem_cons_of_mem a hgl) hcontra
        exact (List.nodup_cons.mp hnd).1 (hga ▸ hgl)
      rw [List.count_cons]
      simp [hzero]
    · have hfl : f ∈ l := by
        rcases List.mem_cons.mp hf with heq | hfl
        · exact absurd heq.symm haf
        · exact hfl
      cases hg : mapGet conns a with
      | none =>
          exact ih (List.nodup_cons.mp hnd).2 hfl
            (fun g hgl => hinj g (List.mem_cons_of_mem a hgl))
      | some s =>
          have hs : s ≠ fs := by
            intro hcontra
            exact haf (hinj a (List.mem_cons_self a l) (hcontra ▸ hg))
          have hne2 : mk s ≠ mk fs := fun hmkeq => hs (hmk _ _ hmkeq)
          rw [List.count_cons]
          simp [hne2, ih (List.nodup_cons.mp hnd).2 hfl
            (fun g hgl => hinj g (List.mem_cons_of_mem a hgl))]

theorem handleConnection_eq_some (conns : ConnMap) (db : DB)
    (userId socketId : String) (now : Nat) (u : UserRec)
    (hu : findById db userId = some u) :
    handleConnection conns db userId socketId now true
      = { conns := mapSet conns userId socketId,
          db := userUpdate db userId
            (fun v => { v with isOnline := true, lastSeen := now }),
          out := if u.friends.length > 0 then
              fanout (mapSet conns userId socketId) u.friends
                (fun fs => OutEvent.friendOnline fs userId)
            else [],
          crashed := false } := by
  have hdb : findById (userUpdate db userId
        (fun v => { v with isOnline := true, lastSeen := now })) userId
      = some { u with isOnline := true, lastSeen := now } := by
    rw [findById_userUpdate_self, hu]; rfl
  simp only [handleConnection]
  rw [hdb]
  by_cases hf : u.friends.length > 0 <;> simp [hf]

theorem handleConnection_eq_none (conns : ConnMap) (db : DB)
    (userId socketId : String) (now : Nat)
    (hu : findById db userId = none) :
    handleConnection conns db userId socketId now true
      = { conns := mapSet conns userId socketId,
          db := userUpdate db userId
            (fun v => { v with isOnline := true, lastSeen := now }),
          out := [], crashed := false } := by
  have hdb : findById (userUpdate db userId
        (fun v => { v with isOnline := true, lastSeen := now })) userId = none := by
    rw [findById_userUpdate_self, hu]; rfl
  simp only [handleConnection]
  rw [hdb]
  rfl

theorem handleDisconnect_eq_some (conns : ConnMap) (db : DB)
    (userId : String) (now : Nat) (u : UserRec)
    (hu : findById db userId = some u) :
    handleDisconnect conns db userId now true
      = { conns := mapDelete conns userId,
          db := userUpdate db userId
            (fun v => { v with isOnline := false, lastSeen := now }),
          out := if u.friends.length > 0 then
              fanout (mapDelete conns userId) u.friends
                (fun fs => OutEvent.friendOffline fs userId now)
            else [],
          crashed := false } := by
  have hdb : findById (userUpdate db userId
        (fun v => { v with isOnline := false, lastSeen := now })) userId
      = some { u with isOnline := false, lastSeen := now } := by
    rw [findById_userUpdate_self, hu]; rfl
  simp only [handleDisconnect]
  rw [hdb]
  by_cases hf : u.friends.length > 0 <;> simp [hf]

theorem handleDisconnect_eq_none (conns : ConnMap) (db : DB)
    (userId : String) (now : Nat)
    (hu : findById db userId = none) :
    handleDisconnect conns db userId now true
      = { conns := mapDelete conns userId,
          db := userUpdate db userId
            (fun v => { v with isOnline := false, lastSeen := now }),
          out := [], crashed := false } := by
  have hdb : findById (userUpdate db userId
        (fun v => { v with isOnline := false, lastSeen := now })) userId = none := by
    rw [findById_userUpdate_self, hu]; rfl
  simp only [handleDisconnect]
  rw [hdb]
  rfl

theorem handleUpdateCurrentlyPlaying_eq_some (conns : ConnMap) (db : DB)
    (userId songId : String) (now : Nat) (u : UserRec)
    (hu : findById db userId = some u) :
    handleUpdateCurrentlyPlaying conns db userId songId now true
      = { conns := conns,
          db := userUpdate db userId
            (fun v => { v with currentlyPlaying := some (songId, now) }),
          out := if u.friends.length > 0 then
              fanout conns u.friends
                (fun fs => OutEvent.friendCurrentlyPlaying fs userId songId now)
            else [],
          crashed := false } := by
  have hdb : findById (userUpdate db userId
        (fun v => { v with currentlyPlaying := some (songId, now) })) userId
      = some { u with currentlyPlaying := some (songId, now) } := by
    rw [findById_userUpdate_self, hu]; rfl
  simp only [handleUpdateCurrentlyPlaying]
  rw [hdb]
  by_cases hf : u.friends.length > 0 <;> simp [hf]

theorem handleUpdateCurrentlyPlaying_eq_none (conns : ConnMap) (db : DB)
    (userId songId : String) (now : Nat)
    (hu : findById db userId = none) :
    handleUpdateCurrentlyPlaying conns db userId songId now true
      = { conns := conns,
          db := userUpdate db userId
            (fun v => { v with currentlyPlaying := some (songId, now) }),
          out := [], crashed := false } := by
  have hdb : findById (userUpdate db userId
        (fun v => { v with currentlyPlaying := some (songId, now) })) userId
      = none := by
    rw [findById_userUpdate_self, hu]; rfl
  simp only [handleUpdateCurrentlyPlaying]
  rw [hdb]
  rfl

/-! ### Membership in `$addToSet` results -/

theorem mem_addToSet_self (l : List String) (x : String) : x ∈ addToSet l x := by
  unfold addToSet
  by_cases h : x ∈ l <;> simp [h]

theorem mem_addToSet_of_mem (l : List String) (x y : String) (h : y ∈ l) :
    y ∈ addToSet l x := by
  unfold addToSet
  by_cases hx : x ∈ l <;> simp [h, hx]

/-! ### Concrete fixtures used by the witnesses -/

/-- A user whose only friend is `"B"`. -/
def userA : UserRec :=
  { username := "alice", friends := ["B"], isOnline := false, lastSeen := 0,
    currentlyPlaying := none }

/-- A user whose only friend is `"A"`. -/
def userB : UserRec :=
  { username := "bob", friends := ["A"], isOnline := true, lastSeen := 0,
    currentlyPlaying := none }

/-- A two-user database. -/
def exDb : DB := { users := [("A", userA), ("B", userB)], messages := [] }

/-- A registry where only `"B"` is connected, on socket `"sB"`. -/
def exConns : ConnMap := [("B", "sB")]

/-- An empty database. -/
def emptyDb : DB := { users := [], messages := [] }

/-- A pending friend request from `"A"` to `"B"`. -/
def reqAB : FriendRequest :=
  { id := "r1", sender := "A", receiver := "B", status := "pending" }

/-! ### Claims -/

/-- The message record `ChatMessage.create` persists for a send. -/
def mkMsg (senderId receiverId content : String) (now : Nat) : ChatMsg :=
  { sender := senderId, receiver := receiverId, content := content,
    createdAt := now }

/-- Claim C1: a `privateMessage` sent while the recipient has a live
connection yields exactly one `newMessage` on the recipient's socket and a
`messageSent` acknowledgment on the sender's socket, and both events carry
the very same enriched record, so the content, sender and timestamp fields
of the recipient's `newMessage` are identical to those of the sender's
acknowledgment. -/
theorem C1_privateMessage_delivery (conns : ConnMap) (db : DB)
    (senderId senderSocket receiverId content : String) (now : Nat)
    (rs : String) (hrs : mapGet conns receiverId = some rs) :
    ∃ m : EnrichedMsg,
      (handlePrivateMessage conns db senderId senderSocket receiverId content
          now true).out
        = [OutEvent.newMessage rs m, OutEvent.messageSent senderSocket m]
      ∧ m.sender = senderId ∧ m.content = content ∧ m.createdAt = now := by
  refine ⟨populateSender
      { db with messages := db.messages ++ [mkMsg senderId receiverId content now] }
      (mkMsg senderId receiverId content now), ?_, rfl, rfl, rfl⟩
  simp only [handlePrivateMessage]
  rw [hrs]
  rfl

/-- Witness for C1 at a concrete input: `"B"` is connected on socket `"sB"`
and the two delivery events carry one identical record. -/
theorem C1_privateMessage_delivery_witness :
    mapGet exConns "B" = some "sB"
    ∧ ∃ m : EnrichedMsg,
        (handlePrivateMessage exConns exDb "A" "sA" "B" "hi" 7 true).out
          = [OutEvent.newMessage "sB" m, OutEvent.messageSent "sA" m]
        ∧ m.sender = "A" ∧ m.content = "hi" ∧ m.createdAt = 7 :=
  ⟨rfl, C1_privateMessage_delivery exConns exDb "A" "sA" "B" "hi" 7 "sB" rfl⟩

/-- Claim C3: when persisting the message record fails, the handler emits a
`messageError` to the sender and nothing else — no `newMessage` to the
recipient, no `messageSent` acknowledgment — the message collection is
unchanged and the error does not escape the handler. -/
theorem C3_privateMessage_persist_failure (conns : ConnMap) (db : DB)
    (senderId senderSocket receiverId content : String) (now : Nat) :
    handlePrivateMessage conns db senderId senderSocket receiverId content
        now false
      = { conns := conns, db := db,
          out := [OutEvent.messageError senderSocket], crashed := false } := rfl

/-- Claim C6: a `privateMessage` sent while the recipient has no live
connection yields only the `messageSent` acknowledgment to the sender —
zero delivery events to the recipient — and the message record is
nonetheless appended to the persisted message collection. -/
theorem C6_privateMessage_offline_recipient (conns : ConnMap) (db : DB)
    (senderId senderSocket receiverId content : String) (now : Nat)
    (hoff : mapGet conns receiverId = none) :
    ∃ m : EnrichedMsg,
      (handlePrivateMessage conns db senderId senderSocket receiverId content
          now true).out = [OutEvent.messageSent senderSocket m]
      ∧ (handlePrivateMessage conns db senderId senderSocket receiverId content
          now true).db.messages
        = db.messages ++ [mkMsg senderId receiverId content now] := by
  refine ⟨populateSender
      { db with messages := db.messages ++ [mkMsg senderId receiverId content now] }
      (mkMsg senderId receiverId content now), ?_, ?_⟩
  · simp only [handlePrivateMessage]
    rw [hoff]
    rfl
  · rfl

/-- Witness for C6 at a concrete input: `"C"` has no live connection. -/
theorem C6_privateMessage_offline_recipient_witness :
    mapGet exConns "C" = none
    ∧ ∃ m : EnrichedMsg,
        (handlePrivateMessage exConns exDb "A" "sA" "C" "yo" 9 true).out
          = [OutEvent.messageSent "sA" m]
        ∧ (handlePrivateMessage exConns exDb "A" "sA" "C" "yo" 9 true).db.messages
          = exDb.messages ++ [mkMsg "A" "C" "yo" 9] :=
  ⟨rfl, C6_privateMessage_offline_recipient exConns exDb "A" "sA" "C" "yo" 9 rfl⟩

theorem filter_key_after_remove (l : List (String × String)) (u : String) :
    ((l.filter (fun p => !(p.1 == u))).filter (fun p => p.1 == u)) = [] := by
  induction l with
  | nil => rfl
  | cons p l ih =>
    by_cases h : p.1 = u <;> simp [List.filter_cons, h, ih]

/-- Claim C7: the registry keeps at most one connection handle per user —
registering a second handle for the same user raises no error, only one
entry for that user remains, and lookup returns the most recent handle. -/
theorem C7_registry_last_write_wins (conns : ConnMap) (u s1 s2 : String) :
    mapGet (mapSet (mapSet conns u s1) u s2) u = some s2
    ∧ ((mapSet (mapSet conns u s1) u s2).filter
        (fun p => p.1 == u)).length = 1 := by
  constructor
  · simp [mapGet, mapSet]
  · simp [mapSet, List.filter_cons, filter_key_after_remove]

/-- Claim C2 counterexample: with friend `"B"` connected, a failed
persistence write in the now-playing handler produces no fan-out at all,
although the very same event with a successful write delivers
`friendCurrentlyPlaying` to `"B"` — so the fan-out does not proceed on a
persistence failure, contrary to the claim. -/
theorem C2_persist_failure_counterexample :
    (handleUpdateCurrentlyPlaying exConns exDb "A" "s1" 5 false).out = []
    ∧ (handleUpdateCurrentlyPlaying exConns exDb "A" "s1" 5 true).out
        = [OutEvent.friendCurrentlyPlaying "sB" "A" "s1" 5] :=
  ⟨rfl, rfl⟩

/-- Claim C2 amended: when the delegated persistence write fails, the
fan-out to connected friends does not proceed at all — the now-playing
handler catches the error and only logs it (nothing emitted, nothing
escapes, database unchanged), while the connection and disconnect handlers
emit nothing and let the error escape uncaught. -/
theorem C2_amended_persist_failure_skips_fanout (conns : ConnMap) (db : DB)
    (userId socketId songId : String) (now : Nat) :
    (handleUpdateCurrentlyPlaying conns db userId songId now false).out = []
    ∧ (handleUpdateCurrentlyPlaying conns db userId songId now false).crashed
        = false
    ∧ (handleUpdateCurrentlyPlaying conns db userId songId now false).db = db
    ∧ (handleConnection conns db userId socketId now false).out = []
    ∧ (handleConnection conns db userId socketId now false).crashed = true
    ∧ (handleDisconnect conns db userId now false).out = []
    ∧ (handleDisconnect conns db userId now false).crashed = true :=
  ⟨rfl, rfl, rfl, rfl, rfl, rfl, rfl⟩

/-- Claim C8 counterexample: a typing event whose payload is missing the
receiver id emits no events at all — in particular no error event is
delivered back to the originating connection, contrary to the claim. -/
theorem C8_malformed_typing_counterexample :
    handleTyping exConns "A" none = [] := rfl

/-- Claim C8 amended: a malformed typing payload (missing receiver id) is
silently ignored — the handler emits nothing and does not crash; the
now-playing handler never lets an error escape; an error event is delivered
to the originator only by the privateMessage handler, as `messageError` to
the sender on a persistence failure. -/
theorem C8_amended_malformed_payload_silent (conns : ConnMap) (db : DB)
    (userId songId senderId senderSocket receiverId content : String)
    (now : Nat) (ok : Bool) :
    handleTyping conns userId none = []
    ∧ (handleUpdateCurrentlyPlaying conns db userId songId now ok).crashed
        = false
    ∧ (handlePrivateMessage conns db senderId senderSocket receiverId content
        now false).out = [OutEvent.messageError senderSocket] := by
  refine ⟨rfl, ?_, rfl⟩
  cases ok with
  | false => rfl
  | true =>
      rcases hu : findById db userId with _ | u
      · rw [handleUpdateCurrentlyPlaying_eq_none conns db userId songId now hu]
      · rw [handleUpdateCurrentlyPlaying_eq_some conns db userId songId now u hu]

/-- Claim C4: when a user with a non-empty friend set connects (and the
persistence write succeeds), every friend with a live registry entry
receives exactly one `friendOnline` event carrying the user's id, and the
total number of emitted events equals the number of connected friends, so
friends without a live connection receive nothing. -/
theorem C4_connect_friendOnline_exactly_once (conns : ConnMap) (db : DB)
    (userId socketId : String) (now : Nat) (u : UserRec)
    (hu : findById db userId = some u) (hnd : u.friends.Nodup)
    (f fs : String) (hf : f ∈ u.friends)
    (hfs : mapGet (mapSet conns userId socketId) f = some fs)
    (hinj : ∀ g ∈ u.friends,
      mapGet (mapSet conns userId socketId) g = some fs → g = f) :
    ((handleConnection conns db userId socketId now true).out.count
        (OutEvent.friendOnline fs userId) = 1)
    ∧ (handleConnection conns db userId socketId now true).out.length
        = (u.friends.filter
            (fun g => (mapGet (mapSet conns userId socketId) g).isSome)).length := by
  have hlen : u.friends.length > 0 :=
    List.length_pos.mpr (List.ne_nil_of_mem hf)
  have hmk : ∀ a b : String,
      OutEvent.friendOnline a userId = OutEvent.friendOnline b userId → a = b := by
    intro a b hab
    injection hab with h1 h2
  rw [handleConnection_eq_some conns db userId socketId now u hu]
  dsimp only
  rw [if_pos hlen]
  exact ⟨fanout_count_one _ _ _ f fs hmk hnd hf hfs hinj, fanout_length _ _ _⟩

/-- Witness for C4 at a concrete input: `"A"` (whose only friend is `"B"`)
connects while `"B"` is live on `"sB"`; `"B"` gets exactly one
`friendOnline` and the event count equals the connected-friend count. -/
theorem C4_connect_friendOnline_exactly_once_witness :
    findById exDb "A" = some userA
    ∧ (((handleConnection exConns exDb "A" "sA" 1 true).out.count
          (OutEvent.friendOnline "sB" "A") = 1)
       ∧ (handleConnection exConns exDb "A" "sA" 1 true).out.length
          = (userA.friends.filter
              (fun g => (mapGet (mapSet exConns "A" "sA") g).isSome)).length) :=
  ⟨rfl, C4_connect_friendOnline_exactly_once exConns exDb "A" "sA" 1 userA rfl
    (by decide) "B" "sB" (by decide) (by decide) (by decide)⟩

/-- Claim C10: if the user's persisted record cannot be fetched or its
friend list is empty, the connect, disconnect and now-playing handlers emit
no notification event at all and raise no error. -/
theorem C10_no_target_silent_noop (conns : ConnMap) (db : DB)
    (userId socketId songId : String) (now : Nat)
    (h : findById db userId = none
      ∨ ∃ u, findById db userId = some u ∧ u.friends = []) :
    (handleConnection conns db userId socketId now true).out = []
    ∧ (handleConnection conns db userId socketId now true).crashed = false
    ∧ (handleDisconnect conns db userId now true).out = []
    ∧ (handleDisconnect conns db userId now true).crashed = false
    ∧ (handleUpdateCurrentlyPlaying conns db userId songId now true).out = []
    ∧ (handleUpdateCurrentlyPlaying conns db userId songId now true).crashed
        = false := by
  rcases h with hn | ⟨u, hu, hfr⟩
  · rw [handleConnection_eq_none conns db userId socketId now hn,
      handleDisconnect_eq_none conns db userId now hn,
      handleUpdateCurrentlyPlaying_eq_none conns db userId songId now hn]
    exact ⟨rfl, rfl, rfl, rfl, rfl, rfl⟩
  · rw [handleConnection_eq_some conns db userId socketId now u hu,
      handleDisconnect_eq_some conns db userId now u hu,
      handleUpdateCurrentlyPlaying_eq_some conns db userId songId now u hu]
    simp [hfr]

/-- Witness for C10 at a concrete input: an unknown user id in an empty
database. -/
theorem C10_no_target_silent_noop_witness :
    (findById emptyDb "Z" = none
      ∨ ∃ u, findById emptyDb "Z" = some u ∧ u.friends = [])
    ∧ ((handleConnection [] emptyDb "Z" "sZ" 0 true).out = []
       ∧ (handleConnection [] emptyDb "Z" "sZ" 0 true).crashed = false
       ∧ (handleDisconnect [] emptyDb "Z" 0 true).out = []
       ∧ (handleDisconnect [] emptyDb "Z" 0 true).crashed = false
       ∧ (handleUpdateCurrentlyPlaying [] emptyDb "Z" "s1" 0 true).out = []
       ∧ (handleUpdateCurrentlyPlaying [] emptyDb "Z" "s1" 0 true).crashed
          = false) :=
  ⟨Or.inl rfl,
    C10_no_target_silent_noop [] emptyDb "Z" "sZ" "s1" 0 (Or.inl rfl)⟩

/-- Claim C5: after a user connects at time `t1`, disconnecting at a later
time `t2` delivers exactly one `friendOffline` event — carrying the user's
id and the fresh `lastSeen` `t2`, which is at least the connection time —
to each friend with a live registry entry, every emitted event is such a
`friendOffline`, and the event count equals the connected-friend count, so
friends without a live connection receive nothing. -/
theorem C5_disconnect_friendOffline_exactly_once (conns : ConnMap) (db : DB)
    (userId socketId : String) (t1 t2 : Nat) (hle : t1 ≤ t2)
    (u : UserRec) (hu : findById db userId = some u) (hnd : u.friends.Nodup)
    (f fs : String) (hf : f ∈ u.friends)
    (hfs : mapGet (mapDelete (mapSet conns userId socketId) userId) f = some fs)
    (hinj : ∀ g ∈ u.friends,
      mapGet (mapDelete (mapSet conns userId socketId) userId) g = some fs
        → g = f) :
    ((handleDisconnect (handleConnection conns db userId socketId t1 true).conns
        (handleConnection conns db userId socketId t1 true).db
        userId t2 true).out.count (OutEvent.friendOffline fs userId t2) = 1)
    ∧ (∀ e ∈ (handleDisconnect
          (handleConnection conns db userId socketId t1 true).conns
          (handleConnection conns db userId socketId t1 true).db
          userId t2 true).out,
        ∃ gs, e = OutEvent.friendOffline gs userId t2 ∧ t1 ≤ t2)
    ∧ (handleDisconnect (handleConnection conns db userId socketId t1 true).conns
        (handleConnection conns db userId socketId t1 true).db
        userId t2 true).out.length
      = (u.friends.filter
          (fun g => (mapGet (mapDelete (mapSet conns userId socketId) userId)
              g).isSome)).length := by
  have hmk : ∀ a b : String,
      OutEvent.friendOffline a userId t2 = OutEvent.friendOffline b userId t2
        → a = b := by
    intro a b hab
    injection hab with h1 h2
  rw [handleConnection_eq_some conns db userId socketId t1 u hu]
  dsimp only
  have hu1 : findById (userUpdate db userId
        (fun v => { v with isOnline := true, lastSeen := t1 })) userId
      = some { u with isOnline := true, lastSeen := t1 } := by
    rw [findById_userUpdate_self, hu]
    rfl
  rw [handleDisconnect_eq_some _ _ userId t2 _ hu1]
  dsimp only
  have hlen : u.friends.length > 0 :=
    List.length_pos.mpr (List.ne_nil_of_mem hf)
  rw [if_pos hlen]
  refine ⟨fanout_count_one _ _ _ f fs hmk hnd hf hfs hinj, ?_, fanout_length _ _ _⟩
  intro e he
  rcases fanout_mem _ _ _ e he with ⟨g, s, hg, hs, hes⟩
  exact ⟨s, hes, hle⟩

/-- Witness for C5 at a concrete input: `"A"` connects at time 1 and
disconnects at time 2 while `"B"` is live on `"sB"`. -/
theorem C5_disconnect_friendOffline_exactly_once_witness :
    1 ≤ 2 ∧ findById exDb "A" = some userA
    ∧ (((handleDisconnect
          (handleConnection exConns exDb "A" "sA" 1 true).conns
          (handleConnection exConns exDb "A" "sA" 1 true).db
          "A" 2 true).out.count (OutEvent.friendOffline "sB" "A" 2) = 1)
       ∧ (∀ e ∈ (handleDisconnect
            (handleConnection exConns exDb "A" "sA" 1 true).conns
            (handleConnection exConns exDb "A" "sA" 1 true).db
            "A" 2 true).out,
          ∃ gs, e = OutEvent.friendOffline gs "A" 2 ∧ 1 ≤ 2)
       ∧ (handleDisconnect
            (handleConnection exConns exDb "A" "sA" 1 true).conns
            (handleConnection exConns exDb "A" "sA" 1 true).db
            "A" 2 true).out.length
          = (userA.friends.filter
              (fun g => (mapGet (mapDelete (mapSet exConns "A" "sA") "A")
                  g).isSome)).length) :=
  ⟨Nat.le_succ 1, rfl,
    C5_disconnect_friendOffline_exactly_once exConns exDb "A" "sA" 1 2
      (Nat.le_succ 1) userA rfl (by decide) "B" "sB" (by decide) (by decide)
      (by decide)⟩

/-- Claim C9: when a friend request is accepted (the request exists and the
caller is its receiver, both users having documents), the route succeeds and
adds the sender to the receiver's friend list and the receiver to the
sender's friend list, so afterwards the sender is in the receiver's friends
if and only if the receiver is in the sender's friends. -/
theorem C9_accept_friend_request_symmetric (db : DB)
    (reqs : List FriendRequest) (requestId callerId : String)
    (r : FriendRequest)
    (hr : reqs.find? (fun q => q.id == requestId) = some r)
    (hrecv : r.receiver = callerId)
    (us ur : UserRec)
    (hs : findById db r.sender = some us)
    (hv : findById db r.receiver = some ur) :
    (acceptFriendRequest db reqs requestId callerId).status = 200
    ∧ ∃ us2 ur2,
        findById (acceptFriendRequest db reqs requestId callerId).db r.sender
          = some us2
        ∧ findById (acceptFriendRequest db reqs requestId callerId).db
            r.receiver = some ur2
        ∧ r.receiver ∈ us2.friends ∧ r.sender ∈ ur2.friends
        ∧ (r.sender ∈ ur2.friends ↔ r.receiver ∈ us2.friends) := by
  have hacc : acceptFriendRequest db reqs requestId callerId
      = { db := userUpdate (userUpdate db r.sender
            (fun u => { u with friends := addToSet u.friends r.receiver }))
            r.receiver
            (fun u => { u with friends := addToSet u.friends r.sender }),
          requests := reqs.map (fun q =>
            if q.id == r.id then { q with status := "accepted" } else q),
          status := 200 } := by
    simp only [acceptFriendRequest]
    rw [hr]
    dsimp only
    rw [if_neg (by simp [hrecv])]
  rw [hacc]
  refine ⟨rfl, ?_⟩
  set f1 : UserRec → UserRec :=
    fun u => { u with friends := addToSet u.friends r.receiver } with hf1
  set f2 : UserRec → UserRec :=
    fun u => { u with friends := addToSet u.friends r.sender } with hf2
  have hdb1s : findById (userUpdate db r.sender f1) r.sender = some (f1 us) := by
    rw [findById_userUpdate_self, hs]
    rfl
  have h1 : ∃ us2,
      findById (userUpdate (userUpdate db r.sender f1) r.receiver f2) r.sender
        = some us2 ∧ r.receiver ∈ us2.friends := by
    by_cases hsr : r.receiver = r.sender
    · refine ⟨f2 (f1 us), ?_, ?_⟩
      · rw [hsr, findById_userUpdate_self, hdb1s]
        rfl
      · exact mem_addToSet_of_mem _ _ _ (mem_addToSet_self _ _)
    · exact ⟨f1 us, by rw [findById_userUpdate_ne _ _ _ _ hsr, hdb1s],
        mem_addToSet_self _ _⟩
  have h2 : ∃ ur2,
      findById (userUpdate (userUpdate db r.sender f1) r.receiver f2)
        r.receiver = some ur2 ∧ r.sender ∈ ur2.friends := by
    rw [findById_userUpdate_self]
    by_cases hsr : r.sender = r.receiver
    · rw [← hsr]
      rw [hdb1s]
      exact ⟨f2 (f1 us), rfl, mem_addToSet_self _ _⟩
    · rw [findById_userUpdate_ne _ _ _ _ hsr, hv]
      exact ⟨f2 ur, rfl, mem_addToSet_self _ _⟩
  obtain ⟨us2, hus2, hmem1⟩ := h1
  obtain ⟨ur2, hur2, hmem2⟩ := h2
  exact ⟨us2, ur2, hus2, hur2, hmem1, hmem2, iff_of_true hmem2 hmem1⟩

/-- Witness for C9 at a concrete input: `"B"` accepts the pending request
from `"A"`. -/
theorem C9_accept_friend_request_symmetric_witness :
    ([reqAB].find? (fun q => q.id == "r1") = some reqAB)
    ∧ reqAB.receiver = "B"
    ∧ ((acceptFriendRequest exDb [reqAB] "r1" "B").status = 200
       ∧ ∃ us2 ur2,
          findById (acceptFriendRequest exDb [reqAB] "r1" "B").db reqAB.sender
            = some us2
          ∧ findById (acceptFriendRequest exDb [reqAB] "r1" "B").db
              reqAB.receiver = some ur2
          ∧ reqAB.receiver ∈ us2.friends ∧ reqAB.sender ∈ ur2.friends
          ∧ (reqAB.sender ∈ ur2.friends ↔ reqAB.receiver ∈ us2.friends)) :=
  ⟨rfl, rfl,
    C9_accept_friend_request_symmetric exDb [reqAB] "r1" "B" reqAB rfl rfl
      userA userB rfl rfl⟩

end Relay
